import Mathlib

/-!
Verification of the `docker-ytinstr` repository: a Telegram bot (`bot.py`)
that downloads the audio of a YouTube URL and uses the Demucs 4-stem
source-separation model (`demucs_separator.py`) to produce an instrumental
mix.  This file shallowly embeds the repository's own logic — the per-method
stem mixer, the control flow of `DemucsVocalSeparator.separate`, and the
request handlers `process_with_method` / `process_youtube_url` — and proves
the specification's claims about it.

Waveforms are modelled as lists of rationals (one entry per sample); the
float weights 0.1, 1.2, 0.8 of the source are exact scientific literals
over ℚ, so the policy table is reproduced in behaviour, not in float
rounding.  External effects (Telegram replies, yt-dlp, torchaudio, the
filesystem) are modelled as events in a trace and as outcome flags in an
environment record.
-/

/-! ## Waveforms and the stem mixer (demucs_separator.py, lines 93-105) -/

/-- Elementwise sum of two waveforms (tensor `+` on aligned stems). -/
def addL (xs ys : List ℚ) : List ℚ := List.zipWith (· + ·) xs ys

/-- Scalar multiple of a waveform (tensor scalar `*`). -/
def smulL (c : ℚ) (xs : List ℚ) : List ℚ := xs.map (fun x => c * x)

/-- The 4-stem output of the Demucs model, in the source's documented order
`[drums, bass, other, vocals]` (`sources[:, 0] .. sources[:, 3]`). -/
structure StemSet where
  drums : List ℚ
  bass : List ℚ
  other : List ℚ
  vocals : List ℚ
deriving DecidableEq, Repr

/-- The mix computed by `DemucsVocalSeparator.separate` for a given `method`
string, translated branch by branch from demucs_separator.py lines 93-105:
`aggressive` and the `else` (standard / unknown) branch are
`sources[:, :3].sum(dim=1)`; `gentle` adds `0.1 * sources[:, 3]`;
`karaoke` is `1.2*sources[:,0] + 1.2*sources[:,1] + 0.8*sources[:,2]`. -/
def mixStems (method : String) (sources : StemSet) : List ℚ :=
  if method = "aggressive" then
    addL (addL sources.drums sources.bass) sources.other
  else if method = "gentle" then
    addL (addL (addL sources.drums sources.bass) sources.other)
      (smulL (0.1 : ℚ) sources.vocals)
  else if method = "karaoke" then
    addL (addL (smulL (1.2 : ℚ) sources.drums) (smulL (1.2 : ℚ) sources.bass))
      (smulL (0.8 : ℚ) sources.other)
  else
    addL (addL sources.drums sources.bass) sources.other

/-- The specification's policy table (spec §4.3): weights
(drums, bass, other, vocals) per method, unknown tags falling back to
`standard`.  This definition follows the spec's words, to be compared with
`mixStems`, which follows the source. -/
def policyWeights (method : String) : ℚ × ℚ × ℚ × ℚ :=
  if method = "standard" then (1, 1, 1, 0)
  else if method = "aggressive" then (1, 1, 1, 0)
  else if method = "gentle" then (1, 1, 1, 0.1)
  else if method = "karaoke" then (1.2, 1.2, 0.8, 0)
  else (1, 1, 1, 0)

/-- The spec's mixer semantics: elementwise weighted sum of the four stems
with a weight vector `w = (drums, bass, other, vocals)`. -/
def weightedSum (w : ℚ × ℚ × ℚ × ℚ) (s : StemSet) : List ℚ :=
  addL (addL (addL (smulL w.1 s.drums) (smulL w.2.1 s.bass))
    (smulL w.2.2.1 s.other)) (smulL w.2.2.2 s.vocals)

theorem smulL_one (xs : List ℚ) : smulL 1 xs = xs := by
  simp [smulL]

theorem addL_smulL_zero (xs ys : List ℚ) (h : xs.length ≤ ys.length) :
    addL xs (smulL 0 ys) = xs := by
  induction xs generalizing ys with
  | nil => simp [addL]
  | cons x xs ih =>
    cases ys with
    | nil => simp at h
    | cons y ys =>
      simp only [List.length_cons, Nat.succ_le_succ_iff] at h
      simp [addL, smulL] at ih ⊢
      exact ih ys h

theorem addL_length (xs ys : List ℚ) :
    (addL xs ys).length = min xs.length ys.length :=
  List.length_zipWith ..

/-- A concrete aligned 4-stem input used by the concrete witnesses below. -/
def stems0 : StemSet := ⟨[1], [2], [3], [4]⟩

/-- C1: for every aligned 4-stem input and every method tag, the mixer's
output equals the elementwise weighted sum of the 4 stems with the weights
of the policy table: standard and aggressive use (1, 1, 1, 0), gentle uses
(1, 1, 1, 0.1), karaoke uses (1.2, 1.2, 0.8, 0), and unknown tags use the
standard weights. -/
theorem C1_mixer_matches_policy_table (method : String) (s : StemSet)
    (hb : s.bass.length = s.drums.length)
    (ho : s.other.length = s.drums.length)
    (hv : s.vocals.length = s.drums.length) :
    mixStems method s = weightedSum (policyWeights method) s := by
  have hlen3 : (addL (addL s.drums s.bass) s.other).length ≤ s.vocals.length := by
    simp [addL_length, hb, ho, hv]
  have hlenk : (addL (addL (smulL (1.2 : ℚ) s.drums) (smulL (1.2 : ℚ) s.bass))
      (smulL (0.8 : ℚ) s.other)).length ≤ s.vocals.length := by
    simp [addL_length, smulL, hb, ho, hv]
  by_cases h1 : method = "aggressive"
  · subst h1
    simp [mixStems, weightedSum, policyWeights, smulL_one,
      addL_smulL_zero _ _ hlen3]
  · by_cases h2 : method = "gentle"
    · subst h2
      simp [mixStems, weightedSum, policyWeights, smulL_one]
    · by_cases h3 : method = "karaoke"
      · subst h3
        simp [mixStems, weightedSum, policyWeights, smulL_one,
          addL_smulL_zero _ _ hlenk]
      · simp [mixStems, weightedSum, policyWeights, h1, h2, h3, smulL_one,
          addL_smulL_zero _ _ hlen3]

/-- Witness for C1 at a concrete aligned stem set and the `gentle` method. -/
theorem C1_mixer_matches_policy_table_witness :
    mixStems "gentle" stems0 = weightedSum (policyWeights "gentle") stems0 :=
  C1_mixer_matches_policy_table "gentle" stems0 rfl rfl rfl

/-- C2: every method tag other than `aggressive`, `gentle` and `karaoke`
(including any unknown string) produces the same output as the `standard`
method on the same stems. -/
theorem C2_unknown_method_falls_back_to_standard (method : String) (s : StemSet)
    (h1 : method ≠ "aggressive") (h2 : method ≠ "gentle")
    (h3 : method ≠ "karaoke") :
    mixStems method s = mixStems "standard" s := by
  simp [mixStems, h1, h2, h3]

/-- Witness for C2 at the unknown method tag `autotune`. -/
theorem C2_unknown_method_falls_back_to_standard_witness :
    mixStems "autotune" stems0 = mixStems "standard" stems0 :=
  C2_unknown_method_falls_back_to_standard "autotune" stems0
    (by decide) (by decide) (by decide)

/-- C6: the `aggressive` method produces exactly the same output waveform
as the `standard` method on every 4-stem input (the source defines the two
branches identically as `sources[:, :3].sum(dim=1)`). -/
theorem C6_aggressive_equals_standard (s : StemSet) :
    mixStems "aggressive" s = mixStems "standard" s := by
  simp [mixStems]

/-! ## Path helpers (models of os.path operations used by the source) -/

/-- Characters of the last `/`-separated component of a path
(model of `os.path.basename` for POSIX paths). -/
def lastComponent (sep : Char) (l : List Char) : List Char :=
  l.foldl (fun acc c => if c = sep then [] else acc ++ [c]) []

/-- Model of `os.path.basename` for POSIX paths. -/
def basename (p : String) : String := String.mk (lastComponent '/' p.data)

/-- Model of `os.path.splitext(p)[0]`: everything before the last dot,
except that a name whose characters before the last dot are all dots
(such as a hidden file `.bashrc`) is returned whole. -/
def splitextRoot (p : String) : String :=
  match p.data.reverse.findIdx? (fun c => c = '.') with
  | none => p
  | some k =>
    let i := p.data.length - 1 - k
    if (p.data.take i).all (fun c => c = '.') then p
    else String.mk (p.data.take i)

/-- Model of POSIX `os.path.join(a, b)` for a first component that does
not end in a slash (the source only ever joins a `tempfile.mkdtemp()`
directory or a caller-supplied output directory): an absolute second
component (leading `/`) discards the first component entirely; otherwise
the components are joined with a `/` (an empty first component yields
`b` alone). -/
def osPathJoin (a b : String) : String :=
  match b.data with
  | '/' :: _ => b
  | _ => if a = "" then b else a ++ "/" ++ b

theorem string_append_ne_empty (a b : String) (hb : b ≠ "") : a ++ b ≠ "" := by
  intro hc
  apply hb
  have hd := congrArg String.data hc
  rw [String.data_append] at hd
  exact congrArg String.mk (List.append_eq_nil.mp hd).2

theorem osPathJoin_ne_empty (a b : String) (hb : b ≠ "") :
    osPathJoin a b ≠ "" := by
  unfold osPathJoin
  split
  · exact hb
  · split
    · exact hb
    · exact string_append_ne_empty _ _ hb

/-! ## The separation step (DemucsVocalSeparator.separate, lines 49-137)

The body of `separate` is one big `try` whose `except Exception` returns
`None`.  `separateRun` embeds the body: a trace of the externally visible
steps plus either the returned path or the raised exception;  `separate`
is the whole method, with the `except` clause folded in.  The environment
records whether each fallible external call (torchaudio.load, apply_model,
torchaudio.save) succeeds, and the stems the model produces. -/

/-- Outcome flags for the fallible external calls inside `separate`, and
the 4-stem output of `apply_model`. -/
structure SepEnv where
  loadOk : Bool
  inferOk : Bool
  saveOk : Bool
  stems : StemSet
deriving DecidableEq

/-- Externally visible steps of `DemucsVocalSeparator.separate`, in source
order.  `callback p` is an invocation of the progress callback with the
integer `p`. -/
inductive SepEvent where
  | makedirs (dir : String)
  | loadAudio (file : String)
  | callback (percent : Nat)
  | inference
  | cpuMove
  | mix (method : String) (instrumental : List ℚ)
  | save (path : String) (data : List ℚ)
deriving DecidableEq

namespace DemucsVocalSeparator

/-- The `try` body of `separate` (demucs_separator.py lines 49-133):
the trace of completed steps and either the output path (`Except.ok`) or
a raised exception (`Except.error`).  Steps in source order: makedirs;
torchaudio.load; `progress_callback(10)`; `apply_model`;
`progress_callback(80)`; `.cpu()`; `progress_callback(100)`; the
per-method mix; building the output path from the original title (or from
the input file name when no title is given); torchaudio.save. -/
def separateRun (env : SepEnv) (inputFile outputDir method : String)
    (hasCallback : Bool) (originalTitle : Option String) :
    List SepEvent × Except Unit String :=
  let t0 := [SepEvent.makedirs outputDir]
  if env.loadOk = false then (t0, Except.error ()) else
  let t2 := t0 ++ [SepEvent.loadAudio inputFile] ++
    (if hasCallback then [SepEvent.callback 10] else [])
  if env.inferOk = false then (t2, Except.error ()) else
  let t6 := t2 ++ [SepEvent.inference] ++
    (if hasCallback then [SepEvent.callback 80] else []) ++
    [SepEvent.cpuMove] ++
    (if hasCallback then [SepEvent.callback 100] else [])
  let instrumental := mixStems method env.stems
  let t7 := t6 ++ [SepEvent.mix method instrumental]
  let baseName := match originalTitle with
    | some t => t
    | none => splitextRoot (basename inputFile)
  let outPath := osPathJoin outputDir (baseName ++ " INSTRUMENTAL.mp3")
  if env.saveOk = false then (t7, Except.error ()) else
  (t7 ++ [SepEvent.save outPath instrumental], Except.ok outPath)

/-- `DemucsVocalSeparator.separate`: the `try` body with the
`except Exception: return None` clause folded in — any raised exception
becomes the `none` sentinel, and no exception escapes. -/
def separate (env : SepEnv) (inputFile outputDir method : String)
    (hasCallback : Bool) (originalTitle : Option String) :
    List SepEvent × Option String :=
  match separateRun env inputFile outputDir method hasCallback originalTitle with
  | (tr, Except.ok p) => (tr, some p)
  | (tr, Except.error _) => (tr, none)

end DemucsVocalSeparator

/-- The successive values the progress callback is invoked with. -/
def callbackValues (tr : List SepEvent) : List Nat :=
  tr.filterMap fun e => match e with
    | SepEvent.callback p => some p
    | _ => none

/-- Recognizer for a callback invocation with value `p`. -/
def isCallbackVal (p : Nat) : SepEvent → Bool := fun e =>
  match e with
  | SepEvent.callback q => q = p
  | _ => false

/-- Recognizer for the save step. -/
def isSaveEvent : SepEvent → Bool := fun e =>
  match e with
  | SepEvent.save _ _ => true
  | _ => false

/-- Recognizer for the mix step. -/
def isMixEvent : SepEvent → Bool := fun e =>
  match e with
  | SepEvent.mix _ _ => true
  | _ => false

/-- `occursBefore p q tr` holds when the first event satisfying `p` comes
strictly before the first event satisfying `q`. -/
def occursBefore (p q : SepEvent → Bool) (tr : List SepEvent) : Bool :=
  match tr.findIdx? p, tr.findIdx? q with
  | some i, some j => decide (i < j)
  | _, _ => false

/-- An environment in which every external call of `separate` succeeds. -/
def envSepOk : SepEnv := ⟨true, true, true, stems0⟩

/-- Counterexample to C3: on a successful request with a callback, the
callback is indeed invoked with exactly 10, 80, 100 in that order, but the
value 100 is reported before the mix and the save of the output file, not
after them. -/
theorem C3_counterexample :
    ((DemucsVocalSeparator.separate envSepOk "audio.mp3" "out" "standard"
        true (some "Song")).2).isSome = true ∧
    callbackValues (DemucsVocalSeparator.separate envSepOk "audio.mp3" "out"
        "standard" true (some "Song")).1 = [10, 80, 100] ∧
    occursBefore isSaveEvent (isCallbackVal 100)
      (DemucsVocalSeparator.separate envSepOk "audio.mp3" "out" "standard"
        true (some "Song")).1 = false ∧
    occursBefore (isCallbackVal 100) isSaveEvent
      (DemucsVocalSeparator.separate envSepOk "audio.mp3" "out" "standard"
        true (some "Song")).1 = true ∧
    occursBefore (isCallbackVal 100) isMixEvent
      (DemucsVocalSeparator.separate envSepOk "audio.mp3" "out" "standard"
        true (some "Song")).1 = true := by
  decide

/-- C3 (amended): for every successful request with a progress callback,
the callback is invoked with exactly 10, then 80, then 100, in that order
and with no other invocations; 10 is reported before model inference, 80
after inference, and 100 after the sources are moved to the CPU but
before the mix and the save of the output file. -/
theorem C3_callback_sequence (env : SepEnv) (inF outD m t : String)
    (hl : env.loadOk = true) (hi : env.inferOk = true)
    (hs : env.saveOk = true) :
    (DemucsVocalSeparator.separate env inF outD m true (some t)).1 =
      [SepEvent.makedirs outD, SepEvent.loadAudio inF, SepEvent.callback 10,
       SepEvent.inference, SepEvent.callback 80, SepEvent.cpuMove,
       SepEvent.callback 100, SepEvent.mix m (mixStems m env.stems),
       SepEvent.save (osPathJoin outD (t ++ " INSTRUMENTAL.mp3"))
         (mixStems m env.stems)] := by
  simp [DemucsVocalSeparator.separate, DemucsVocalSeparator.separateRun,
    hl, hi, hs]

/-- Witness for the amended C3 at a concrete all-successful environment. -/
theorem C3_callback_sequence_witness :
    (DemucsVocalSeparator.separate envSepOk "audio.mp3" "out" "standard"
        true (some "Song")).1 =
      [SepEvent.makedirs "out", SepEvent.loadAudio "audio.mp3",
       SepEvent.callback 10, SepEvent.inference, SepEvent.callback 80,
       SepEvent.cpuMove, SepEvent.callback 100,
       SepEvent.mix "standard" (mixStems "standard" envSepOk.stems),
       SepEvent.save (osPathJoin "out" ("Song" ++ " INSTRUMENTAL.mp3"))
         (mixStems "standard" envSepOk.stems)] :=
  C3_callback_sequence envSepOk "audio.mp3" "out" "standard" "Song"
    rfl rfl rfl

/-- Model of Python `str.startswith(p)`: `p` is a prefix of `s`. -/
def strStartsWith (s p : String) : Bool := p.data.isPrefixOf s.data

/-- A raised Python exception, as far as the handlers distinguish them:
`bot.py` catches `subprocess.CalledProcessError` specially in
`process_audio` and bare `Exception` in the handlers. -/
inductive PyError where
  | calledProcessError (msg : String)
  | genericError (msg : String)
deriving DecidableEq

/-- The `str(e)` of a raised exception. -/
def PyError.msg : PyError → String
  | PyError.calledProcessError m => m
  | PyError.genericError m => m

/-- Outcomes of the external calls made while handling one request:
the `tempfile.mkdtemp()` directory, the result of `download_youtube_audio`
(the title, or the exception it raises), the exception raised by the
`DemucsVocalSeparator()` constructor if any, the outcomes inside
`separate`, and which paths `os.path.exists` reports as present. -/
structure BotEnv where
  tempDir : String
  downloadResult : Except String String
  initError : Option PyError
  sepEnv : SepEnv
  fileExists : String → Bool

/-- Externally visible actions of one request, one constructor per call
site in bot.py (see `BotEvent.renderedMessage` for the exact strings). -/
inductive BotEvent where
  | replyNoArgs (method : String)
  | replyInvalidUrl
  | replyProcessing (method : String)
  | downloadAttempt (url : String)
  | replyDownloaded (title : String)
  | replyRemoving
  | replyProgressInit
  | sep (e : SepEvent)
  | replyHereIs
  | sendAudio (path : String) (caption : String)
  | replyProcError
  | replyException (msg : String)
  | rmtree (dir : String)
deriving DecidableEq

/-- The exact user-visible text of each event, as written in bot.py
(`None` for events with no message).  A `sep (callback p)` event is the
`progress_message.edit_text` performed by the progress callback. -/
def BotEvent.renderedMessage : BotEvent → Option String
  | BotEvent.replyNoArgs method =>
      some ("Please provide a YouTube URL after the /" ++ method ++ " command.")
  | BotEvent.replyInvalidUrl => some "Please send a valid YouTube URL."
  | BotEvent.replyProcessing method =>
      some ("Processing your request using " ++ method ++
        " vocal removal. This may take a few minutes...")
  | BotEvent.replyDownloaded title => some ("Downloaded: " ++ title)
  | BotEvent.replyRemoving => some "Removing vocals..."
  | BotEvent.replyProgressInit => some "Progress: 0%"
  | BotEvent.sep (SepEvent.callback p) =>
      some ("Progress: " ++ toString p ++ "%")
  | BotEvent.replyHereIs => some "Here is your instrumental version:"
  | BotEvent.replyProcError =>
      some "Sorry, there was an error processing the audio."
  | BotEvent.replyException m => some ("Sorry, an error occurred: " ++ m)
  | _ => none

/-- `process_audio` (bot.py lines 137-149): constructs the separator
(whose `__init__` re-raises a model-load failure), calls `separate`, and
catches only `subprocess.CalledProcessError`, returning `None` for it;
any other exception from the constructor propagates. -/
def process_audio (env : BotEnv) (inputFile outputDir method : String)
    (hasCallback : Bool) (originalTitle : Option String) :
    List BotEvent × Except PyError (Option String) :=
  match env.initError with
  | some (PyError.calledProcessError _) => ([], Except.ok none)
  | some (PyError.genericError m) => ([], Except.error (PyError.genericError m))
  | none =>
    let res := DemucsVocalSeparator.separate env.sepEnv inputFile outputDir
      method hasCallback originalTitle
    (res.1.map BotEvent.sep, Except.ok res.2)

/-- The `try` body of `process_with_method` (bot.py lines 66-98): the
trace of its actions and the exception it raises, if any.  Note the
`shutil.rmtree` sits at the end of the `try` block — it runs only when no
exception was raised. -/
def pwmTryBody (env : BotEnv) (url method : String) :
    List BotEvent × Option PyError :=
  match env.downloadResult with
  | Except.error m =>
    ([BotEvent.downloadAttempt url], some (PyError.genericError m))
  | Except.ok title =>
    let pa := process_audio env (osPathJoin env.tempDir "audio.mp3")
      env.tempDir method true (some title)
    match pa.2 with
    | Except.error e =>
      ([BotEvent.downloadAttempt url, BotEvent.replyDownloaded title,
        BotEvent.replyRemoving, BotEvent.replyProgressInit] ++ pa.1, some e)
    | Except.ok r =>
      ([BotEvent.downloadAttempt url, BotEvent.replyDownloaded title,
        BotEvent.replyRemoving, BotEvent.replyProgressInit] ++ pa.1 ++
       (match r with
        | some f =>
          if (!(f == "")) && env.fileExists f then
            [BotEvent.replyHereIs,
             BotEvent.sendAudio f (title ++ " (Instrumental - " ++ method ++ ")")]
          else [BotEvent.replyProcError]
        | none => [BotEvent.replyProcError]) ++
       [BotEvent.rmtree env.tempDir], none)

/-- `process_with_method` (bot.py lines 53-102): reject when no argument
was given; reject a URL without an http(s) scheme; otherwise announce the
method, run the `try` body, and on a raised exception reply with the
generic error message.  `/standard`, `/aggressive`, `/gentle` and
`/karaoke` all call this with their method tag. -/
def process_with_method (env : BotEnv) (args : List String)
    (method : String) : List BotEvent :=
  match args with
  | [] => [BotEvent.replyNoArgs method]
  | url :: _ =>
    if !(strStartsWith url "http://" || strStartsWith url "https://") then
      [BotEvent.replyInvalidUrl]
    else
      let body := pwmTryBody env url method
      match body.2 with
      | none => BotEvent.replyProcessing method :: body.1
      | some e =>
        (BotEvent.replyProcessing method :: body.1) ++
          [BotEvent.replyException (PyError.msg e)]

/-- The `try` body of `process_youtube_url` (bot.py lines 161-193):
identical to `pwmTryBody` with method `standard`, except that the audio
caption omits the method name. -/
def pyuTryBody (env : BotEnv) (url : String) :
    List BotEvent × Option PyError :=
  match env.downloadResult with
  | Except.error m =>
    ([BotEvent.downloadAttempt url], some (PyError.genericError m))
  | Except.ok title =>
    let pa := process_audio env (osPathJoin env.tempDir "audio.mp3")
      env.tempDir "standard" true (some title)
    match pa.2 with
    | Except.error e =>
      ([BotEvent.downloadAttempt url, BotEvent.replyDownloaded title,
        BotEvent.replyRemoving, BotEvent.replyProgressInit] ++ pa.1, some e)
    | Except.ok r =>
      ([BotEvent.downloadAttempt url, BotEvent.replyDownloaded title,
        BotEvent.replyRemoving, BotEvent.replyProgressInit] ++ pa.1 ++
       (match r with
        | some f =>
          if (!(f == "")) && env.fileExists f then
            [BotEvent.replyHereIs,
             BotEvent.sendAudio f (title ++ " (Instrumental)")]
          else [BotEvent.replyProcError]
        | none => [BotEvent.replyProcError]) ++
       [BotEvent.rmtree env.tempDir], none)

/-- `process_youtube_url` (bot.py lines 151-197): the handler for a bare
text message; the whole text is taken as the URL and the `standard`
method is used. -/
def process_youtube_url (env : BotEnv) (text : String) : List BotEvent :=
  if !(strStartsWith text "http://" || strStartsWith text "https://") then
    [BotEvent.replyInvalidUrl]
  else
    let body := pyuTryBody env text
    match body.2 with
    | none => BotEvent.replyProcessing "standard" :: body.1
    | some e =>
      (BotEvent.replyProcessing "standard" :: body.1) ++
        [BotEvent.replyException (PyError.msg e)]

/-! ## Trace projections -/

/-- The URLs passed to `download_youtube_audio`, in order. -/
def downloadsOf (tr : List BotEvent) : List String :=
  tr.filterMap fun e => match e with
    | BotEvent.downloadAttempt u => some u
    | _ => none

/-- The separation-step events of a request trace, in order. -/
def sepEventsOf (tr : List BotEvent) : List SepEvent :=
  tr.filterMap fun e => match e with
    | BotEvent.sep s => some s
    | _ => none

/-- The method tags of the stem mixes performed during a request. -/
def mixMethodsOf (tr : List BotEvent) : List String :=
  (sepEventsOf tr).filterMap fun e => match e with
    | SepEvent.mix m _ => some m
    | _ => none

/-- The error messages shown to the user during a request, in order. -/
def errorRepliesOf (tr : List BotEvent) : List BotEvent :=
  tr.filter fun e => match e with
    | BotEvent.replyProcError => true
    | BotEvent.replyException _ => true
    | _ => false

/-- Whether the request deleted its temporary directory. -/
def tempCleaned (tr : List BotEvent) : Bool :=
  tr.any fun e => match e with
    | BotEvent.rmtree _ => true
    | _ => false

/-- Whether an `Except` is a success. -/
def exceptOk {ε α : Type} : Except ε α → Bool
  | Except.ok _ => true
  | Except.error _ => false

/-- A request environment in which every external call succeeds. -/
def envBotOk : BotEnv :=
  { tempDir := "/tmp/req1", downloadResult := Except.ok "Song",
    initError := none, sepEnv := envSepOk, fileExists := fun _ => true }

/-- A request environment in which `download_youtube_audio` raises. -/
def envDownloadFail : BotEnv :=
  { tempDir := "/tmp/req2", downloadResult := Except.error "HTTP Error 403",
    initError := none, sepEnv := envSepOk, fileExists := fun _ => true }

/-! ## Projection lemmas over the request bodies -/

theorem downloadsOf_sepMap (tr : List SepEvent) :
    downloadsOf (tr.map BotEvent.sep) = [] := by
  induction tr with
  | nil => rfl
  | cons e tr _ => simp [downloadsOf]

theorem sepEventsOf_sepMap (tr : List SepEvent) :
    sepEventsOf (tr.map BotEvent.sep) = tr := by
  induction tr with
  | nil => rfl
  | cons e tr ih => simpa [sepEventsOf] using ih

/-- The separation-step events a request performs, as a function of its
environment: none when the download raises or the separator constructor
raises, otherwise the trace of `separate`. -/
def expectedSepTrace (env : BotEnv) (method : String) : List SepEvent :=
  match env.downloadResult with
  | Except.error _ => []
  | Except.ok title =>
    match env.initError with
    | some _ => []
    | none => (DemucsVocalSeparator.separate env.sepEnv
        (osPathJoin env.tempDir "audio.mp3") env.tempDir method true
        (some title)).1

theorem downloadsOf_pwmTryBody (env : BotEnv) (url method : String) :
    downloadsOf (pwmTryBody env url method).1 = [url] := by
  cases hdl : env.downloadResult with
  | error m => simp [pwmTryBody, hdl, downloadsOf]
  | ok title =>
    cases hinit : env.initError with
    | some e =>
      cases e <;>
        simp [pwmTryBody, process_audio, hdl, hinit, downloadsOf]
    | none =>
      cases hr : (DemucsVocalSeparator.separate env.sepEnv
          (osPathJoin env.tempDir "audio.mp3") env.tempDir method true
          (some title)).2 with
      | none =>
        simp [pwmTryBody, process_audio, hdl, hinit, hr, downloadsOf,
          downloadsOf_sepMap]
      | some f =>
        by_cases hex : ((!(f == "")) && env.fileExists f) = true <;>
          simp [pwmTryBody, process_audio, hdl, hinit, hr, hex, downloadsOf,
            downloadsOf_sepMap]

theorem downloadsOf_pyuTryBody (env : BotEnv) (url : String) :
    downloadsOf (pyuTryBody env url).1 = [url] := by
  cases hdl : env.downloadResult with
  | error m => simp [pyuTryBody, hdl, downloadsOf]
  | ok title =>
    cases hinit : env.initError with
    | some e =>
      cases e <;>
        simp [pyuTryBody, process_audio, hdl, hinit, downloadsOf]
    | none =>
      cases hr : (DemucsVocalSeparator.separate env.sepEnv
          (osPathJoin env.tempDir "audio.mp3") env.tempDir "standard" true
          (some title)).2 with
      | none =>
        simp [pyuTryBody, process_audio, hdl, hinit, hr, downloadsOf,
          downloadsOf_sepMap]
      | some f =>
        by_cases hex : ((!(f == "")) && env.fileExists f) = true <;>
          simp [pyuTryBody, process_audio, hdl, hinit, hr, hex, downloadsOf,
            downloadsOf_sepMap]

theorem sepEventsOf_pwmTryBody (env : BotEnv) (url method : String) :
    sepEventsOf (pwmTryBody env url method).1 = expectedSepTrace env method := by
  cases hdl : env.downloadResult with
  | error m => simp [pwmTryBody, hdl, sepEventsOf, expectedSepTrace]
  | ok title =>
    cases hinit : env.initError with
    | some e =>
      cases e <;>
        simp [pwmTryBody, process_audio, hdl, hinit, sepEventsOf,
          expectedSepTrace]
    | none =>
      cases hr : (DemucsVocalSeparator.separate env.sepEnv
          (osPathJoin env.tempDir "audio.mp3") env.tempDir method true
          (some title)).2 with
      | none =>
        simp [pwmTryBody, process_audio, hdl, hinit, hr, sepEventsOf,
          expectedSepTrace, -List.filterMap_map]
        exact sepEventsOf_sepMap _
      | some f =>
        by_cases hex : ((!(f == "")) && env.fileExists f) = true
        all_goals
          simp [pwmTryBody, process_audio, hdl, hinit, hr, hex, sepEventsOf,
            expectedSepTrace, -List.filterMap_map]
        all_goals exact sepEventsOf_sepMap _

theorem sepEventsOf_pyuTryBody (env : BotEnv) (url : String) :
    sepEventsOf (pyuTryBody env url).1 = expectedSepTrace env "standard" := by
  cases hdl : env.downloadResult with
  | error m => simp [pyuTryBody, hdl, sepEventsOf, expectedSepTrace]
  | ok title =>
    cases hinit : env.initError with
    | some e =>
      cases e <;>
        simp [pyuTryBody, process_audio, hdl, hinit, sepEventsOf,
          expectedSepTrace]
    | none =>
      cases hr : (DemucsVocalSeparator.separate env.sepEnv
          (osPathJoin env.tempDir "audio.mp3") env.tempDir "standard" true
          (some title)).2 with
      | none =>
        simp [pyuTryBody, process_audio, hdl, hinit, hr, sepEventsOf,
          expectedSepTrace, -List.filterMap_map]
        exact sepEventsOf_sepMap _
      | some f =>
        by_cases hex : ((!(f == "")) && env.fileExists f) = true
        all_goals
          simp [pyuTryBody, process_audio, hdl, hinit, hr, hex, sepEventsOf,
            expectedSepTrace, -List.filterMap_map]
        all_goals exact sepEventsOf_sepMap _

theorem downloadsOf_nil : downloadsOf [] = [] := rfl

theorem downloadsOf_cons (e : BotEvent) (tr : List BotEvent) :
    downloadsOf (e :: tr) =
      (match e with
       | BotEvent.downloadAttempt u => [u]
       | _ => []) ++ downloadsOf tr := by
  cases e <;> simp [downloadsOf]

theorem downloadsOf_append (a b : List BotEvent) :
    downloadsOf (a ++ b) = downloadsOf a ++ downloadsOf b := by
  simp [downloadsOf]

theorem sepEventsOf_nil : sepEventsOf [] = [] := rfl

theorem sepEventsOf_cons (e : BotEvent) (tr : List BotEvent) :
    sepEventsOf (e :: tr) =
      (match e with
       | BotEvent.sep s => [s]
       | _ => []) ++ sepEventsOf tr := by
  cases e <;> simp [sepEventsOf]

theorem sepEventsOf_append (a b : List BotEvent) :
    sepEventsOf (a ++ b) = sepEventsOf a ++ sepEventsOf b := by
  simp [sepEventsOf]

theorem downloadsOf_pwm_valid (env : BotEnv) (u method : String)
    (h : (strStartsWith u "http://" || strStartsWith u "https://") = true) :
    downloadsOf (process_with_method env [u] method) = [u] := by
  cases hb : (pwmTryBody env u method).2 with
  | none =>
    simp [process_with_method, h, hb, downloadsOf_cons, downloadsOf_append,
      downloadsOf_nil, downloadsOf_pwmTryBody]
  | some e =>
    simp [process_with_method, h, hb, downloadsOf_cons, downloadsOf_append,
      downloadsOf_nil, downloadsOf_pwmTryBody]

theorem downloadsOf_pyu_valid (env : BotEnv) (u : String)
    (h : (strStartsWith u "http://" || strStartsWith u "https://") = true) :
    downloadsOf (process_youtube_url env u) = [u] := by
  cases hb : (pyuTryBody env u).2 with
  | none =>
    simp [process_youtube_url, h, hb, downloadsOf_cons, downloadsOf_append,
      downloadsOf_nil, downloadsOf_pyuTryBody]
  | some e =>
    simp [process_youtube_url, h, hb, downloadsOf_cons, downloadsOf_append,
      downloadsOf_nil, downloadsOf_pyuTryBody]

theorem sepEventsOf_pwm_valid (env : BotEnv) (u method : String)
    (h : (strStartsWith u "http://" || strStartsWith u "https://") = true) :
    sepEventsOf (process_with_method env [u] method) =
      expectedSepTrace env method := by
  cases hb : (pwmTryBody env u method).2 with
  | none =>
    simp [process_with_method, h, hb, sepEventsOf_cons, sepEventsOf_append,
      sepEventsOf_nil, sepEventsOf_pwmTryBody]
  | some e =>
    simp [process_with_method, h, hb, sepEventsOf_cons, sepEventsOf_append,
      sepEventsOf_nil, sepEventsOf_pwmTryBody]

theorem sepEventsOf_pyu_valid (env : BotEnv) (u : String)
    (h : (strStartsWith u "http://" || strStartsWith u "https://") = true) :
    sepEventsOf (process_youtube_url env u) =
      expectedSepTrace env "standard" := by
  cases hb : (pyuTryBody env u).2 with
  | none =>
    simp [process_youtube_url, h, hb, sepEventsOf_cons, sepEventsOf_append,
      sepEventsOf_nil, sepEventsOf_pyuTryBody]
  | some e =>
    simp [process_youtube_url, h, hb, sepEventsOf_cons, sepEventsOf_append,
      sepEventsOf_nil, sepEventsOf_pyuTryBody]

/-- C5: a URL without an `http://` or `https://` scheme is rejected with
the user-visible invalid-URL message and no download is attempted, by both
the command handler and the bare-text handler; a URL with such a scheme
passes validation, the handler announces the method, and the URL is routed
to the pipeline (handed to the downloader) exactly once. -/
theorem C5_url_validation (env : BotEnv) (url method : String) :
    ((strStartsWith url "http://" || strStartsWith url "https://") = false →
      process_with_method env [url] method = [BotEvent.replyInvalidUrl] ∧
      downloadsOf (process_with_method env [url] method) = [] ∧
      process_youtube_url env url = [BotEvent.replyInvalidUrl] ∧
      downloadsOf (process_youtube_url env url) = []) ∧
    ((strStartsWith url "http://" || strStartsWith url "https://") = true →
      downloadsOf (process_with_method env [url] method) = [url] ∧
      (process_with_method env [url] method).head? =
        some (BotEvent.replyProcessing method) ∧
      downloadsOf (process_youtube_url env url) = [url]) := by
  constructor
  · intro h
    refine ⟨?_, ?_, ?_, ?_⟩ <;>
      simp [process_with_method, process_youtube_url, h, downloadsOf]
  · intro h
    refine ⟨downloadsOf_pwm_valid env url method h, ?_,
      downloadsOf_pyu_valid env url h⟩
    cases hb : (pwmTryBody env url method).2 with
    | none => simp [process_with_method, h, hb]
    | some e => simp [process_with_method, h, hb]

/-- Witness for C5: a concrete ftp URL is rejected; a concrete https URL
is downloaded. -/
theorem C5_url_validation_witness :
    process_with_method envBotOk ["ftp://example.com/a"] "standard" =
      [BotEvent.replyInvalidUrl] ∧
    downloadsOf (process_with_method envBotOk ["https://youtu.be/a"]
      "standard") = ["https://youtu.be/a"] := by
  constructor
  · exact ((C5_url_validation envBotOk "ftp://example.com/a" "standard").1
      (by decide)).1
  · exact ((C5_url_validation envBotOk "https://youtu.be/a" "standard").2
      (by decide)).1

/-- C7: when the downloader raises, the request performs no separation and
no mixing, the user receives exactly one error reply (the generic
exception message), and the download is attempted exactly once — nothing
is retried. -/
theorem C7_download_failure_single_error (env : BotEnv) (url method m : String)
    (hvalid : (strStartsWith url "http://" ||
      strStartsWith url "https://") = true)
    (hdl : env.downloadResult = Except.error m) :
    process_with_method env [url] method =
      [BotEvent.replyProcessing method, BotEvent.downloadAttempt url,
       BotEvent.replyException m] ∧
    sepEventsOf (process_with_method env [url] method) = [] ∧
    mixMethodsOf (process_with_method env [url] method) = [] ∧
    errorRepliesOf (process_with_method env [url] method) =
      [BotEvent.replyException m] ∧
    downloadsOf (process_with_method env [url] method) = [url] := by
  have htr : process_with_method env [url] method =
      [BotEvent.replyProcessing method, BotEvent.downloadAttempt url,
       BotEvent.replyException m] := by
    simp [process_with_method, hvalid, pwmTryBody, hdl, PyError.msg]
  refine ⟨htr, ?_, ?_, ?_, ?_⟩ <;> rw [htr] <;> rfl

/-- Witness for C7 at a concrete failing download. -/
theorem C7_download_failure_single_error_witness :
    process_with_method envDownloadFail ["https://youtu.be/a"] "standard" =
      [BotEvent.replyProcessing "standard",
       BotEvent.downloadAttempt "https://youtu.be/a",
       BotEvent.replyException "HTTP Error 403"] :=
  (C7_download_failure_single_error envDownloadFail "https://youtu.be/a"
    "standard" "HTTP Error 403" (by decide) rfl).1

/-! ## C4: temporary-directory cleanup -/

/-- Whether the `DemucsVocalSeparator()` constructor raises an exception
that `process_audio` does not catch (anything but
`subprocess.CalledProcessError`). -/
def initRaises (env : BotEnv) : Bool :=
  match env.initError with
  | some (PyError.genericError _) => true
  | _ => false

/-- Counterexample to C4: a request that passes URL validation but whose
download raises never deletes its temporary directory — the
`shutil.rmtree` sits at the end of the `try` block, so a raised exception
skips it. -/
theorem C4_counterexample :
    (strStartsWith "https://youtu.be/a" "http://" ||
      strStartsWith "https://youtu.be/a" "https://") = true ∧
    tempCleaned (process_with_method envDownloadFail ["https://youtu.be/a"]
      "standard") = false := by
  constructor
  · decide
  · decide

/-- C4 (amended): for every request that passes URL validation, the
temporary directory is deleted exactly when the `try` body raises no
exception — that is, on the success path and on the soft-failure paths
(separation returning the `None` sentinel, missing output file), but not
when the downloader or the separator constructor raises. -/
theorem C4_cleanup_iff_no_exception (env : BotEnv) (url method : String)
    (hvalid : (strStartsWith url "http://" ||
      strStartsWith url "https://") = true) :
    tempCleaned (process_with_method env [url] method) = true ↔
      (exceptOk env.downloadResult && !(initRaises env)) = true := by
  cases hdl : env.downloadResult with
  | error m =>
    simp [process_with_method, hvalid, pwmTryBody, hdl, tempCleaned,
      exceptOk]
  | ok title =>
    cases hinit : env.initError with
    | some e =>
      cases e with
      | calledProcessError m =>
        simp [process_with_method, hvalid, pwmTryBody, process_audio, hdl,
          hinit, tempCleaned, exceptOk, initRaises]
      | genericError m =>
        simp [process_with_method, hvalid, pwmTryBody, process_audio, hdl,
          hinit, tempCleaned, exceptOk, initRaises]
    | none =>
      cases hr : (DemucsVocalSeparator.separate env.sepEnv
          (osPathJoin env.tempDir "audio.mp3") env.tempDir method true
          (some title)).2 with
      | none =>
        simp [process_with_method, hvalid, pwmTryBody, process_audio, hdl,
          hinit, hr, tempCleaned, exceptOk, initRaises]
      | some f =>
        by_cases hex : ((!(f == "")) && env.fileExists f) = true
        all_goals
          simp [process_with_method, hvalid, pwmTryBody, process_audio, hdl,
            hinit, hr, hex, tempCleaned, exceptOk, initRaises]

/-- Witness for the amended C4: a fully successful request does delete its
temporary directory. -/
theorem C4_cleanup_iff_no_exception_witness :
    tempCleaned (process_with_method envBotOk ["https://youtu.be/a"]
      "standard") = true ↔
      (exceptOk envBotOk.downloadResult && !(initRaises envBotOk)) = true :=
  C4_cleanup_iff_no_exception envBotOk "https://youtu.be/a" "standard"
    (by decide)

/-! ## C9: bare text versus the /standard command -/

/-- C9: a bare text message is validated, downloaded and mixed exactly as
the `/standard` command on the same URL: both reject invalid URLs with the
same trace, attempt the same downloads, and perform the same separation
steps (hence the same mixes with the `standard` tag). -/
theorem C9_bare_text_equals_standard_command (env : BotEnv) (u : String) :
    ((strStartsWith u "http://" || strStartsWith u "https://") = false →
      process_youtube_url env u = process_with_method env [u] "standard") ∧
    downloadsOf (process_youtube_url env u) =
      downloadsOf (process_with_method env [u] "standard") ∧
    sepEventsOf (process_youtube_url env u) =
      sepEventsOf (process_with_method env [u] "standard") ∧
    mixMethodsOf (process_youtube_url env u) =
      mixMethodsOf (process_with_method env [u] "standard") := by
  cases hv : (strStartsWith u "http://" || strStartsWith u "https://") with
  | true =>
    refine ⟨?_, ?_, ?_, ?_⟩
    case _ =>
      intro h
      exact Bool.noConfusion h
    · rw [downloadsOf_pyu_valid env u hv,
        downloadsOf_pwm_valid env u "standard" hv]
    · rw [sepEventsOf_pyu_valid env u hv,
        sepEventsOf_pwm_valid env u "standard" hv]
    · unfold mixMethodsOf
      rw [sepEventsOf_pyu_valid env u hv,
        sepEventsOf_pwm_valid env u "standard" hv]
  | false =>
    have he : process_youtube_url env u =
        process_with_method env [u] "standard" := by
      simp [process_youtube_url, process_with_method, hv]
    exact ⟨fun _ => he, by rw [he], by rw [he], by rw [he]⟩

/-- Witness for C9 at a concrete invalid message text: both handlers
produce the same (rejection) trace. -/
theorem C9_bare_text_equals_standard_command_witness :
    process_youtube_url envBotOk "watch this video" =
      process_with_method envBotOk ["watch this video"] "standard" :=
  (C9_bare_text_equals_standard_command envBotOk "watch this video").1
    (by decide)

/-! ## C10: the None sentinel and error reporting -/

theorem separate_none_iff (env : SepEnv) (inF outD m : String) (cb : Bool)
    (t : Option String) :
    (DemucsVocalSeparator.separate env inF outD m cb t).2 = none ↔
      (env.loadOk = false ∨ env.inferOk = false ∨ env.saveOk = false) := by
  cases hl : env.loadOk <;> cases hi : env.inferOk <;> cases hs : env.saveOk <;>
    simp [DemucsVocalSeparator.separate, DemucsVocalSeparator.separateRun,
      hl, hi, hs]

/-- An environment in which loading the input audio fails. -/
def envSepFail : SepEnv := ⟨false, true, true, stems0⟩

/-- C10: the separation step never propagates an exception — it returns
the `none` sentinel exactly when one of its external calls fails — and the
caller reports the processing-error message to the user exactly when the
result is `none` or the returned path does not exist on disk. -/
theorem C10_none_sentinel_and_error_reporting
    (senv : SepEnv) (inF outD m : String) (cb : Bool) (t : Option String)
    (env : BotEnv) (url method title : String)
    (hvalid : (strStartsWith url "http://" ||
      strStartsWith url "https://") = true)
    (hdl : env.downloadResult = Except.ok title)
    (hinit : env.initError = none) :
    ((DemucsVocalSeparator.separate senv inF outD m cb t).2 = none ↔
      (senv.loadOk = false ∨ senv.inferOk = false ∨ senv.saveOk = false)) ∧
    (BotEvent.replyProcError ∈ process_with_method env [url] method ↔
      ((DemucsVocalSeparator.separate env.sepEnv
          (osPathJoin env.tempDir "audio.mp3") env.tempDir method true
          (some title)).2 = none ∨
       ∃ f, (DemucsVocalSeparator.separate env.sepEnv
          (osPathJoin env.tempDir "audio.mp3") env.tempDir method true
          (some title)).2 = some f ∧ env.fileExists f = false)) := by
  refine ⟨separate_none_iff senv inF outD m cb t, ?_⟩
  by_cases hfail : (env.sepEnv.loadOk = false ∨ env.sepEnv.inferOk = false ∨
      env.sepEnv.saveOk = false)
  · have hr : (DemucsVocalSeparator.separate env.sepEnv
        (osPathJoin env.tempDir "audio.mp3") env.tempDir method true
        (some title)).2 = none := (separate_none_iff _ _ _ _ _ _).mpr hfail
    simp [process_with_method, hvalid, pwmTryBody, process_audio, hdl,
      hinit, hr]
  · push_neg at hfail
    obtain ⟨hl, hi, hs⟩ := hfail
    rw [Bool.ne_false_iff] at hl hi hs
    have hr : (DemucsVocalSeparator.separate env.sepEnv
        (osPathJoin env.tempDir "audio.mp3") env.tempDir method true
        (some title)).2 =
        some (osPathJoin env.tempDir (title ++ " INSTRUMENTAL.mp3")) := by
      simp [DemucsVocalSeparator.separate, DemucsVocalSeparator.separateRun,
        hl, hi, hs]
    have hne : osPathJoin env.tempDir (title ++ " INSTRUMENTAL.mp3") ≠ "" :=
      osPathJoin_ne_empty _ _ (string_append_ne_empty _ _ (by decide))
    have hbeq : (osPathJoin env.tempDir (title ++ " INSTRUMENTAL.mp3") == "")
        = false := beq_eq_false_iff_ne.mpr hne
    cases hex : env.fileExists (osPathJoin env.tempDir
        (title ++ " INSTRUMENTAL.mp3")) with
    | true =>
      simp [process_with_method, hvalid, pwmTryBody, process_audio, hdl,
        hinit, hr, hbeq, hex]
    | false =>
      simp [process_with_method, hvalid, pwmTryBody, process_audio, hdl,
        hinit, hr, hbeq, hex]

/-- Witness for C10: a failed audio load yields the `none` sentinel, and a
fully successful request triggers no processing-error reply. -/
theorem C10_none_sentinel_and_error_reporting_witness :
    ((DemucsVocalSeparator.separate envSepFail "a.mp3" "o" "standard" false
        none).2 = none ↔
      (envSepFail.loadOk = false ∨ envSepFail.inferOk = false ∨
        envSepFail.saveOk = false)) ∧
    (BotEvent.replyProcError ∈ process_with_method envBotOk
        ["https://youtu.be/a"] "standard" ↔
      ((DemucsVocalSeparator.separate envBotOk.sepEnv
          (osPathJoin envBotOk.tempDir "audio.mp3") envBotOk.tempDir
          "standard" true (some "Song")).2 = none ∨
       ∃ f, (DemucsVocalSeparator.separate envBotOk.sepEnv
          (osPathJoin envBotOk.tempDir "audio.mp3") envBotOk.tempDir
          "standard" true (some "Song")).2 = some f ∧
          envBotOk.fileExists f = false)) :=
  C10_none_sentinel_and_error_reporting envSepFail "a.mp3" "o" "standard"
    false none envBotOk "https://youtu.be/a" "standard" "Song" (by decide)
    rfl rfl
